import Mathlib

/-!
Shallow embedding of `src/mkdocs_rss_plugin/plugin.py` (class `GitRssPlugin`),
the single source file of the repository `mkdocs-rss-plugin`.

Modelling conventions:
* timestamps are `Int` (epoch seconds); all text is `String`;
* Python `None` / possibly-absent dict keys are `Option`;
* the external collaborators that live outside `src/` — the git-history
  reader `Util.get_file_dates`, the summariser
  `Util.get_description_or_abstract`, the mkdocs build timestamp and the
  filesystem check `Path(...).is_file()` — are passed in as explicit
  parameters, so every hook is a pure function of its inputs;
* a raised Python exception is `Except.error` carrying the exception text.
-/

namespace MkdocsRss

/-- The apostrophe character, written via its code point. -/
def quoteChar : Char := Char.ofNat 39

/-- One collected page record, mirroring `customtypes.PageInformation`
as it is constructed in `on_page_markdown` (plugin.py lines 118-129). -/
structure PageInformation where
  abs_path : String
  created : Int
  updated : Int
  title : String
  description : String
  url_full : String
deriving Repr, DecidableEq

/-- One rendered feed item. The only items the code ever puts in the feed
are the placeholder dicts of plugin.py lines 152-155, which carry exactly
a `title` and a `description` key. -/
structure FeedEntry where
  title : String
  description : String
deriving Repr, DecidableEq

/-- The `self.feed` dictionary built in `on_config` (plugin.py lines 72-88).
`rss_url = none` models the `rss_url` key being absent from the dict. -/
structure Feed where
  author : Option String
  buildDate : String
  copyright : Option String
  description : Option String
  generator : String
  html_url : Option String
  repo_url : Option String
  title : Option String
  ttl : Int
  rss_url : Option String
  entries : List FeedEntry
deriving Repr, DecidableEq

/-- The fields of the mkdocs global configuration object that plugin.py
reads. `none` models an unset (`None`-valued or absent) key. -/
structure MkDocsConfig where
  site_author : Option String := none
  copyright : Option String := none
  site_description : Option String := none
  site_url : Option String := none
  repo_url : Option String := none
  site_name : Option String := none
deriving Repr, DecidableEq

/-- Modelled from the spec: the values of `__about__.__title__` and
`__about__.__version__` (the `.__about__` module is not under `src/`);
per the spec the generator is "a fixed string combining product name and
version", so the exact strings are arbitrary constants here. -/
def __title__ : String := "mkdocs-rss-plugin"

/-- Modelled from the spec: see `__title__`. -/
def __version__ : String := "0.1.0"

/-- Path of the bundled default template
(`DEFAULT_TEMPLATE_FOLDER / "rss.xml.jinja2"`, plugin.py lines 29-30).
Only the final name component matters to the embedding. -/
def DEFAULT_TEMPLATE_FILENAME : String :=
  "mkdocs_rss_plugin/templates/rss.xml.jinja2"

/-- The validated plugin configuration: every option of `config_scheme`
(plugin.py lines 37-45) with its declared type. -/
structure PluginConfig where
  abstract_chars_count : Int
  category : Option String
  exclude_files : List String
  feed_ttl : Int
  length : Int
  output_feed_filepath : String
  template : String
deriving Repr, DecidableEq

/-- The options as the user wrote them in `mkdocs.yml`: `none` means the
option was not set. -/
structure UserOptions where
  abstract_chars_count : Option Int := none
  category : Option String := none
  exclude_files : Option (List String) := none
  feed_ttl : Option Int := none
  length : Option Int := none
  output_feed_filepath : Option String := none
  template : Option String := none
deriving Repr, DecidableEq

/-- Mkdocs option validation applied to `config_scheme` (plugin.py lines
37-45): each unset option takes the declared default. -/
def validate_config (u : UserOptions) : PluginConfig :=
  { abstract_chars_count := u.abstract_chars_count.getD 150
    category := u.category
    exclude_files := u.exclude_files.getD []
    feed_ttl := u.feed_ttl.getD 1440
    length := u.length.getD 20
    output_feed_filepath := u.output_feed_filepath.getD "feed.xml"
    template := u.template.getD DEFAULT_TEMPLATE_FILENAME }

/-- The plugin instance state. `tpl_file`, `tpl_folder` and `feed` are
attributes first created by `on_config`; `none` models the attribute not
existing yet (accessing it raises `AttributeError`). `tpl_file` holds the
configured template path (`Path(self.config.get("template"))`),
`tpl_folder` its parent directory. -/
structure PluginState where
  pages_to_filter : List PageInformation
  tpl_file : Option String
  tpl_folder : Option String
  feed : Option Feed
deriving Repr, DecidableEq

/-- `GitRssPlugin.__init__` (plugin.py lines 47-49): the fresh instance has
an empty `pages_to_filter` and none of the `on_config`-created attributes. -/
def GitRssPlugin.init : PluginState :=
  { pages_to_filter := [], tpl_file := none, tpl_folder := none, feed := none }

/-- Split a list of characters on a separator character (used to model
`pathlib.Path` name/parent decomposition). -/
def splitOnChar (c : Char) : List Char → List (List Char)
  | [] => [[]]
  | x :: xs =>
    let r := splitOnChar c xs
    if x = c then [] :: r
    else
      match r with
      | [] => [[x]]
      | y :: ys => (x :: y) :: ys

/-- `pathlib.Path(p).name`: the final path component. -/
def pathName (p : String) : String :=
  String.mk ((splitOnChar (Char.ofNat 47) p.data).getLastD [])

/-- `pathlib.Path(p).parent` rendered back as a string. -/
def pathParent (p : String) : String :=
  String.intercalate "/" (((splitOnChar (Char.ofNat 47) p.data).dropLast).map String.mk)

/-- Python truthiness of an optional string (`if config.get("site_url")`):
`None` and the empty string are falsy. -/
def truthy : Option String → Bool
  | none => false
  | some s => !s.isEmpty

/-- `GitRssPlugin.on_config` (plugin.py lines 51-91).
`template_is_file` is the result of the filesystem check
`Path(self.config.get("template")).is_file()`; `build_date` is
`formatdate(get_build_timestamp())`, supplied by mkdocs. The hook raises
`FileExistsError` when the template is not a file, otherwise stores the
template path pieces and the feed dictionary on the instance. -/
def on_config (template_is_file : Bool) (build_date : String)
    (st : PluginState) (config : MkDocsConfig) (pc : PluginConfig) :
    Except String PluginState :=
  if template_is_file = false then
    Except.error ("FileExistsError: " ++ pc.template)
  else
    let feed0 : Feed :=
      { author := config.site_author
        buildDate := build_date
        copyright := config.copyright
        description := config.site_description
        generator := __title__ ++ " - v" ++ __version__
        html_url := config.site_url
        repo_url :=
          match config.repo_url with
          | some r => some r
          | none => config.site_url
        title := config.site_name
        ttl := pc.feed_ttl
        rss_url := none
        entries := [] }
    let feed1 : Feed :=
      if truthy config.site_url then
        { feed0 with
            rss_url :=
              some ((config.site_url.getD "") ++ "/" ++ pc.output_feed_filepath) }
      else feed0
    Except.ok
      { st with
          tpl_file := some pc.template
          tpl_folder := some (pathParent pc.template)
          feed := some feed1 }

/-- The fields of a mkdocs `Page` that `on_page_markdown` reads:
`page.file.abs_src_path`, `page.title` and `page.canonical_url`. -/
structure Page where
  abs_src_path : String
  title : String
  canonical_url : String
deriving Repr, DecidableEq

/-- The `PageInformation(...)` constructor call of plugin.py lines
113-128, split out for reuse in statements about the page pass.
`get_file_dates` models the external `Util.get_file_dates(path,
fallback_to_build_date)` (its module is not under `src/`); it is called
with `fallback_to_build_date = 1` as in line 114. `get_desc` models the
external `Util.get_description_or_abstract(in_page, chars_count)`. -/
def pageRecord (get_file_dates : String → Int → Int × Int)
    (get_desc : Page → Int → String) (pc : PluginConfig) (page : Page) :
    PageInformation :=
  let page_dates := get_file_dates page.abs_src_path 1
  { abs_path := page.abs_src_path
    created := page_dates.1
    updated := page_dates.2
    title := page.title
    description := get_desc page pc.abstract_chars_count
    url_full := page.canonical_url }

/-- `GitRssPlugin.on_page_markdown` (plugin.py lines 93-129). The hook
appends one `PageInformation` to `self.pages_to_filter` and, having no
`return` statement, returns Python `None` (modelled as the
`Option String` second component). -/
def on_page_markdown (get_file_dates : String → Int → Int × Int)
    (get_desc : Page → Int → String)
    (st : PluginState) (_markdown : String) (page : Page)
    (pc : PluginConfig) : PluginState × Option String :=
  let st1 :=
    { st with
        pages_to_filter :=
          st.pages_to_filter ++ [pageRecord get_file_dates get_desc pc page] }
  (st1, none)

/-- ASCII lowercasing of one character. -/
def charLower (c : Char) : Char :=
  if 65 ≤ c.toNat ∧ c.toNat ≤ 90 then Char.ofNat (c.toNat + 32) else c

/-- ASCII lowercasing of a string (`str.lower`). -/
def strToLower (s : String) : String := String.mk (s.data.map charLower)

/-- Suffix test on strings (`str.endswith`). -/
def strEndsWith (s post : String) : Bool := post.data.isSuffixOf s.data

/-- Semantics of `jinja2.select_autoescape(enabled_extensions)` applied to
a template name (plugin.py line 146 passes `["xml"]`): escaping is enabled
iff the lowercased template name ends with `"." ++ ext` for some enabled
extension; with the call's implicit defaults (`disabled_extensions=()`,
`default=False`) every other name gets no escaping. -/
def select_autoescape (enabled_extensions : List String)
    (template_name : String) : Bool :=
  enabled_extensions.any
    (fun ext => strEndsWith (strToLower template_name) ("." ++ strToLower ext))

/-- Markupsafe escaping of one character, as jinja2 autoescaping applies it
to interpolated values. -/
def escapeChar (c : Char) : List Char :=
  if c = Char.ofNat 38 then "&amp;".data
  else if c = Char.ofNat 60 then "&lt;".data
  else if c = Char.ofNat 62 then "&gt;".data
  else if c = Char.ofNat 34 then "&#34;".data
  else if c = Char.ofNat 39 then "&#39;".data
  else [c]

/-- Markupsafe escaping of a string. -/
def xmlEscape (s : String) : String :=
  String.mk ((s.data.map escapeChar).flatten)

/-- Render an optional channel field: emit the tag only when the value is
set, escaping the value iff autoescaping is active. -/
def renderOptField (autoescape : Bool) (tag : String) (v : Option String) :
    String :=
  match v with
  | none => ""
  | some s =>
      "<" ++ tag ++ ">" ++ (if autoescape then xmlEscape s else s) ++
        "</" ++ tag ++ ">"

/-- Render one feed item. -/
def renderEntry (autoescape : Bool) (e : FeedEntry) : String :=
  let esc := fun s => if autoescape then xmlEscape s else s
  "<item><title>" ++ esc e.title ++ "</title><description>" ++
    esc e.description ++ "</description></item>"

/-- Modelled from the spec: the bundled `templates/rss.xml.jinja2` template
file is not under `src/`. Per the spec the rendered document carries the
channel-level fields (title, link, description, generator, ttl, copyright,
build date) and one item per entry (title, description, ...), every value
interpolated through jinja2 `\x7b\x7b ... \x7d\x7d` expressions, which
escape the inserted value iff the environment's autoescape setting is
active for the template. -/
def renderTemplate (autoescape : Bool) (feed : Feed) : String :=
  let esc := fun s => if autoescape then xmlEscape s else s
  "<rss><channel>" ++
    renderOptField autoescape "title" feed.title ++
    renderOptField autoescape "link" feed.html_url ++
    renderOptField autoescape "description" feed.description ++
    "<generator>" ++ esc feed.generator ++ "</generator>" ++
    "<ttl>" ++ toString feed.ttl ++ "</ttl>" ++
    renderOptField autoescape "copyright" feed.copyright ++
    "<lastBuildDate>" ++ esc feed.buildDate ++ "</lastBuildDate>" ++
    String.join (feed.entries.map (renderEntry autoescape)) ++
    "</channel></rss>"

/-- The two placeholder items that plugin.py lines 152-155 put into
`self.feed["entries"]`; the second description is the literal
`&é(` followed by a quote, `(é` and a quote. -/
def placeholderEntries : List FeedEntry :=
  [{ title := "hahaha", description := "youplouboum" },
   { title := "OIHOHOIHO",
     description :=
       "&é(" ++ quoteChar.toString ++ "(é" ++ quoteChar.toString }]

/-- `GitRssPlugin.on_post_build` (plugin.py lines 132-161). Accessing a
missing instance attribute raises `AttributeError` (line 145 reads
`self.tpl_folder` first, line 149 `self.tpl_file`, line 152 `self.feed`).
Otherwise the hook builds the jinja environment with
`select_autoescape(["xml"])`, overwrites `self.feed["entries"]` with the
two placeholder dicts, renders the template and writes the document to
`self.config.get("output_feed_filepath")`. The result carries the new
state, the path written to, and the document text. -/
def on_post_build (st : PluginState) (pc : PluginConfig) :
    Except String (PluginState × String × String) :=
  match st.tpl_folder with
  | none => Except.error "AttributeError: tpl_folder"
  | some _tpl_folder =>
    match st.tpl_file with
    | none => Except.error "AttributeError: tpl_file"
    | some tpl_path =>
      match st.feed with
      | none => Except.error "AttributeError: feed"
      | some feed =>
        let autoescape := select_autoescape ["xml"] (pathName tpl_path)
        let feed1 := { feed with entries := placeholderEntries }
        let document := renderTemplate autoescape feed1
        Except.ok ({ st with feed := some feed1 },
          pc.output_feed_filepath, document)

/-- One whole build: `on_config`, then `on_page_markdown` once per page in
order, then `on_post_build` — the hook order the mkdocs lifecycle
guarantees. -/
def buildRun (get_file_dates : String → Int → Int × Int)
    (get_desc : Page → Int → String)
    (template_is_file : Bool) (build_date : String)
    (config : MkDocsConfig) (pc : PluginConfig) (pages : List Page) :
    Except String (PluginState × String × String) := do
  let s ← on_config template_is_file build_date GitRssPlugin.init config pc
  let s := pages.foldl
    (fun st pg => (on_page_markdown get_file_dates get_desc st "" pg pc).1) s
  on_post_build s pc

/-- The page pass alone: fold `on_page_markdown` over a list of pages. -/
def pagePass (get_file_dates : String → Int → Int × Int)
    (get_desc : Page → Int → String) (pc : PluginConfig)
    (st : PluginState) (pages : List Page) : PluginState :=
  pages.foldl
    (fun st pg => (on_page_markdown get_file_dates get_desc st "" pg pc).1) st

/-- Extract the success value of a hook result. -/
def runOk {α : Type} (r : Except String α) : Option α :=
  match r with
  | Except.ok a => some a
  | Except.error _ => none

/-- Count the occurrences of `needle` in a character list. -/
def countOcc (needle : List Char) : List Char → Nat
  | [] => 0
  | x :: xs => (if needle.isPrefixOf (x :: xs) then 1 else 0) + countOcc needle xs

/-- Number of `<item>` elements in a rendered document. -/
def countItems (doc : String) : Nat :=
  countOcc "<item>".data doc.data

/-- Substring test. -/
def containsSub (hay needle : String) : Bool :=
  decide (0 < countOcc needle.data hay.data)

/-! Concrete fixtures used by the theorems below. -/

/-- A history reader that knows none of the paths: both dates fall back. -/
def gfdZ : String → Int → Int × Int := fun _ _ => (0, 0)

/-- A history reader giving `a.md` the dates (1, 1) and every other path
(9, 9). -/
def gfd2 : String → Int → Int × Int :=
  fun p _ => if p = "a.md" then (1, 1) else (9, 9)

/-- A summariser returning the empty description. -/
def gdaTest : Page → Int → String := fun _ _ => ""

/-- A concrete build date string. -/
def bd0 : String := "Thu, 01 Jan 1970 00:00:00 -0000"

/-- A site configuration with a base url and a site name. -/
def mc0 : MkDocsConfig :=
  { site_url := some "https://example.org", site_name := some "Example" }

/-- The all-defaults plugin configuration. -/
def pc0 : PluginConfig := validate_config { }

/-- A page with source path `a.md`. -/
def pgA : Page :=
  { abs_src_path := "a.md", title := "A", canonical_url := "https://example.org/a/" }

/-- A page with source path `b.md`. -/
def pgB : Page :=
  { abs_src_path := "b.md", title := "B", canonical_url := "https://example.org/b/" }

/-- A page whose source path is listed in `exclude_files` below. -/
def pgSecret : Page :=
  { abs_src_path := "secret.md", title := "Secret",
    canonical_url := "https://example.org/secret/" }

/-- A plugin configuration excluding `secret.md`. -/
def pcExcl : PluginConfig := validate_config { exclude_files := some ["secret.md"] }

/-! The claims. -/

/-- Helper: the page pass only appends, adding exactly one record per
visited page, in visit order. -/
theorem pagePass_pages_to_filter (gfd : String → Int → Int × Int)
    (gda : Page → Int → String) (pc : PluginConfig) (st : PluginState)
    (pages : List Page) :
    (pagePass gfd gda pc st pages).pages_to_filter
      = st.pages_to_filter ++ pages.map (pageRecord gfd gda pc) := by
  induction pages generalizing st with
  | nil => simp [pagePass]
  | cons p ps ih =>
      simp only [pagePass, List.foldl_cons, List.map_cons] at *
      rw [ih]
      simp [on_page_markdown]

/-- Helper: whatever `on_post_build` does, it leaves `pages_to_filter`
exactly as it found it. -/
theorem on_post_build_pages_to_filter (st : PluginState) (pc : PluginConfig) :
    Except.map (fun r => r.1.pages_to_filter) (on_post_build st pc)
      = Except.map (fun _ => st.pages_to_filter) (on_post_build st pc) := by
  unfold on_post_build
  cases st.tpl_folder <;> cases st.tpl_file <;> cases st.feed <;> rfl

set_option maxRecDepth 200000 in
/-- C1: counterexample. The claim says a build that collected N entries
renders a feed of min(N, length) items. A default-configuration build
(length = 20) that collected zero pages still renders a feed of two items:
`on_post_build` (plugin.py lines 152-155) fills the feed with two
hardcoded placeholder dicts and never consults `pages_to_filter` or
`length`. -/
theorem c1_zero_pages_two_items :
    (runOk (buildRun gfdZ gdaTest true bd0 mc0 pc0 [])).map
        (fun r => (r.1.pages_to_filter.length, countItems r.2.2))
      = some (0, 2) ∧ pc0.length = 20 ∧ ¬ (2 = min 0 20) := by
  exact ⟨by decide, by decide, by decide⟩

set_option maxRecDepth 200000 in
/-- C2: counterexample. The claim says the rendered feed's entries are the
collected entries sorted by `updated` descending (then `created`
descending, then title ascending). In a build that collected two entries,
titled A (updated 1) and B (updated 9), the rendered feed's items are the
two hardcoded placeholders, and the collected titles A and B appear in no
element of the document — the feed is not any ordering of the collected
entries. -/
theorem c2_collected_entries_not_rendered :
    (runOk (buildRun gfd2 gdaTest true bd0 mc0 pc0 [pgA, pgB])).map
        (fun r =>
          (r.1.feed.map (fun f => f.entries.map FeedEntry.title),
           r.1.pages_to_filter.map (fun e => (e.title, e.updated)),
           containsSub r.2.2 ">A<", containsSub r.2.2 ">B<"))
      = some (some ["hahaha", "OIHOHOIHO"], [("A", 1), ("B", 9)], false, false) := by
  decide

/-- C3: counterexample. The claim says a page matching `exclude_files` is
never appended to the collected list. With `exclude_files = ["secret.md"]`
configured, `on_page_markdown` on the page whose source path is
`secret.md` still appends its record: the hook (plugin.py lines 93-129)
never reads `exclude_files`. -/
theorem c3_excluded_page_still_collected :
    pcExcl.exclude_files = ["secret.md"] ∧
    (on_page_markdown gfdZ gdaTest GitRssPlugin.init "" pgSecret
        pcExcl).1.pages_to_filter.map PageInformation.abs_path
      = ["secret.md"] := by
  exact ⟨rfl, rfl⟩

/-- C4: when the configured template path is not an existing file,
`on_config` raises `FileExistsError` naming the template (plugin.py lines
66-67), so the build fails at configuration time, before any page is
processed. -/
theorem c4_missing_template_raises (bd : String) (st : PluginState)
    (c : MkDocsConfig) (pc : PluginConfig) :
    on_config false bd st c pc =
      Except.error ("FileExistsError: " ++ pc.template) := rfl

/-- C5: after a successful `on_config`, the feed dictionary has an
`rss_url` key exactly when the configured `site_url` is truthy, and then
its value is the base url joined with `"/"` and the configured output feed
path (plugin.py lines 84-88). -/
theorem c5_rss_url (bd : String) (st : PluginState) (c : MkDocsConfig)
    (pc : PluginConfig) :
    Except.map (fun s => s.feed.map Feed.rss_url) (on_config true bd st c pc)
      = Except.ok (some (if truthy c.site_url then
          some ((c.site_url.getD "") ++ "/" ++ pc.output_feed_filepath)
          else none)) := by
  unfold on_config
  cases h : truthy c.site_url <;> simp [h, Except.map]

/-- C6: when the user leaves `feed_ttl` unset, option validation fills the
`config_scheme` default 1440 (plugin.py line 41) and the feed dictionary
built by `on_config` carries `ttl = 1440` (plugin.py line 81). -/
theorem c6_default_ttl (bd : String) (st : PluginState) (c : MkDocsConfig)
    (u : UserOptions) :
    (validate_config { u with feed_ttl := none }).feed_ttl = 1440 ∧
    Except.map (fun s => s.feed.map Feed.ttl)
        (on_config true bd st c (validate_config { u with feed_ttl := none }))
      = Except.ok (some 1440) := by
  refine ⟨rfl, ?_⟩
  unfold on_config
  cases h : truthy c.site_url <;> simp [h, Except.map, validate_config]

set_option maxRecDepth 200000 in
/-- C7: counterexample. The claim says `&`, `<`, `>` in textual fields
appear escaped in the written document. The default template is named
`rss.xml.jinja2`, which does not end in `.xml`, so the
`select_autoescape(["xml"])` environment of plugin.py line 146 leaves
autoescaping off, and the document written by a default-configuration
build contains a raw `&` (from the placeholder description of line 154)
and no `&amp;` anywhere. -/
theorem c7_ampersand_not_escaped :
    select_autoescape ["xml"] (pathName pc0.template) = false ∧
    (runOk (buildRun gfdZ gdaTest true bd0 mc0 pc0 [])).map
        (fun r => (containsSub r.2.2 "&", containsSub r.2.2 "&amp;"))
      = some (true, false) := by
  exact ⟨by decide, by decide⟩

/-- C8: over one build whose visited pages have pairwise distinct source
paths, the collected list holds exactly one record per visited page (its
`abs_path` list is the pages' path list, hence without duplicates), and
the post-build render step leaves the collected list unchanged. -/
theorem c8_collector_invariant (gfd : String → Int → Int × Int)
    (gda : Page → Int → String) (pc pcPost : PluginConfig)
    (st : PluginState) (pages : List Page)
    (hdup : (pages.map Page.abs_src_path).Nodup)
    (hst : st.pages_to_filter = []) :
    ((pagePass gfd gda pc st pages).pages_to_filter.map
        PageInformation.abs_path = pages.map Page.abs_src_path)
    ∧ ((pagePass gfd gda pc st pages).pages_to_filter.map
        PageInformation.abs_path).Nodup
    ∧ Except.map (fun r => r.1.pages_to_filter)
          (on_post_build (pagePass gfd gda pc st pages) pcPost)
        = Except.map (fun _ => (pagePass gfd gda pc st pages).pages_to_filter)
            (on_post_build (pagePass gfd gda pc st pages) pcPost) := by
  have hmap : (pagePass gfd gda pc st pages).pages_to_filter.map
      PageInformation.abs_path = pages.map Page.abs_src_path := by
    rw [pagePass_pages_to_filter, hst]
    simp [pageRecord, Function.comp]
  exact ⟨hmap, hmap ▸ hdup, on_post_build_pages_to_filter _ _⟩

/-- C8 witness: the invariant instantiated on a concrete two-page build. -/
theorem c8_collector_invariant_witness :
    (([pgA, pgB].map Page.abs_src_path).Nodup ∧
      GitRssPlugin.init.pages_to_filter = []) ∧
    (((pagePass gfdZ gdaTest pc0 GitRssPlugin.init [pgA, pgB]).pages_to_filter.map
        PageInformation.abs_path = [pgA, pgB].map Page.abs_src_path)
    ∧ ((pagePass gfdZ gdaTest pc0 GitRssPlugin.init [pgA, pgB]).pages_to_filter.map
        PageInformation.abs_path).Nodup
    ∧ Except.map (fun r => r.1.pages_to_filter)
          (on_post_build (pagePass gfdZ gdaTest pc0 GitRssPlugin.init [pgA, pgB]) pc0)
        = Except.map
            (fun _ => (pagePass gfdZ gdaTest pc0 GitRssPlugin.init [pgA, pgB]).pages_to_filter)
            (on_post_build (pagePass gfdZ gdaTest pc0 GitRssPlugin.init [pgA, pgB]) pc0)) :=
  ⟨⟨by decide, rfl⟩,
    c8_collector_invariant gfdZ gdaTest pc0 pc0 GitRssPlugin.init [pgA, pgB]
      (by decide) rfl⟩

/-- C9: calling the post-build render step on a fresh plugin instance, on
which `on_config` has not run, raises `AttributeError` (plugin.py line 145
reads the nonexistent `self.tpl_folder`): it fails loudly instead of
producing any document. -/
theorem c9_render_before_config_fails (pc : PluginConfig) :
    on_post_build GitRssPlugin.init pc =
      Except.error "AttributeError: tpl_folder" := rfl

/-- C10: for every input, `on_page_markdown` returns Python `None` as its
markdown result (the function body has no `return` statement), so the
plugin never alters any page's markdown source text. -/
theorem c10_page_markdown_returns_none (gfd : String → Int → Int × Int)
    (gda : Page → Int → String) (st : PluginState) (md : String)
    (pg : Page) (pc : PluginConfig) :
    (on_page_markdown gfd gda st md pg pc).2 = none := rfl

end MkdocsRss
